import Mathlib

/-!
Verification development for the spectral-anomaly change-detection pipeline
of the data_cube_ui repository, shallowly embedding the pipeline stages of
apps/spectral_anomaly/tasks.py.  Rasters are modelled as lists of rational
pixel values; pixelwise array operations become List.zipWith / List.map;
fallible stages return Option.  External collaborators (the data access API,
the compositing utilities, matplotlib) are modelled as inputs or abstract
function parameters, exactly at the interfaces the source uses.
-/

/-- Tag for the spectral-index compute functions imported by tasks.py
(NDVI, wofs_classify, NDBI, EVI, frac_coverage_classify); the functions
themselves live in external utility modules, so the registry maps a name
to the tag of the function it would return. -/
inductive SpectralFn where
  | NDVI
  | wofs_classify
  | NDBI
  | EVI
  | frac_coverage_classify
  deriving DecidableEq, Repr

/-- Embedding of the module-level dict spectral_indices_function_map of
tasks.py: the fixed registry from index name to compute function.
A Python dict lookup raising KeyError on a missing key is modelled by
returning none for names outside the registry. -/
def spectral_indices_function_map : String → Option SpectralFn
  | "ndvi" => some SpectralFn.NDVI
  | "ndwi" => some SpectralFn.wofs_classify
  | "ndbi" => some SpectralFn.NDBI
  | "evi" => some SpectralFn.EVI
  | "fractional_cover" => some SpectralFn.frac_coverage_classify
  | _ => none

/-- Embedding of the module-level dict spectral_indices_range_map of
tasks.py: the theoretical output range (min, max) of each registered
spectral index. -/
def spectral_indices_range_map : String → Option (ℚ × ℚ)
  | "ndvi" => some (-1, 1)
  | "ndwi" => some (0, 1)
  | "ndbi" => some (-1, 1)
  | "evi" => some (-1, 1)
  | "fractional_cover" => some (-1, 1)
  | _ => none

/-- Lifecycle states written by task.update_status in tasks.py. -/
inductive TaskStatus where
  | WAIT
  | ERROR
  | OK
  deriving DecidableEq, Repr

/-- The slice of the task model state that tasks.py mutates during
validation: the complete flag and the latest status. -/
structure TaskState where
  complete : Bool
  status : TaskStatus
  deriving DecidableEq, Repr

/-- The parameter bundle assembled by parse_parameters_from_task in
tasks.py (the fields the later stages read; platform/product strings and
measurement lists are opaque to the arithmetic and are represented by the
data they induce at each call site). -/
structure AnalysisParameters where
  spectral_index : String
  composite_threshold_min : ℚ
  composite_threshold_max : ℚ
  change_threshold_min : Option ℚ
  change_threshold_max : Option ℚ
  no_data_value : ℚ
  deriving DecidableEq, Repr

/-- Embedding of validate_parameters of tasks.py.  The external data
access calls dc.list_acquisition_dates (once per time range) and
dc.validate_measurements are modelled by passing their results in:
the two acquisition-date lists and the measurement-validity flag.
The function checks, in source order: baseline acquisitions nonempty,
analysis acquisitions nonempty, measurements valid; on the first failure
it marks the task complete with status ERROR and returns none, otherwise
it returns the parameters unchanged with status WAIT.  It performs no
check on the spectral index name. -/
def validate_parameters (parameters : AnalysisParameters)
    (baseline_acquisitions analysis_acquisitions : List ℕ)
    (measurements_valid : Bool) :
    Option AnalysisParameters × TaskState :=
  if baseline_acquisitions.length < 1 then
    (none, { complete := true, status := TaskStatus.ERROR })
  else if analysis_acquisitions.length < 1 then
    (none, { complete := true, status := TaskStatus.ERROR })
  else if measurements_valid = false then
    (none, { complete := true, status := TaskStatus.ERROR })
  else
    (some parameters, { complete := false, status := TaskStatus.WAIT })

/-- A geographic chunk as produced by the external create_geographic_chunks
utility: a latitude and longitude sub-rectangle of the bounding box. -/
structure GeoChunk where
  latitude : ℚ × ℚ
  longitude : ℚ × ℚ
  deriving DecidableEq, Repr

/-- The chunk-details dict returned by perform_task_chunking of tasks.py. -/
structure ChunkDetails where
  parameters : AnalysisParameters
  geographic_chunks : List GeoChunk
  time_chunks : List (List ℕ)
  deriving DecidableEq, Repr

/-- Embedding of perform_task_chunking of tasks.py.  The chunk grids are
built by the external dc_chunker utilities create_geographic_chunks and
create_time_chunks, modelled by passing their results in.  The stage
propagates none when validation returned none (the guard at the top of
the source function), otherwise it packages parameters with the chunk
lists. -/
def perform_task_chunking (parameters : Option AnalysisParameters)
    (geographic_chunks : List GeoChunk) (time_chunks : List (List ℕ)) :
    Option ChunkDetails :=
  match parameters with
  | none => none
  | some p =>
      some { parameters := p, geographic_chunks := geographic_chunks,
             time_chunks := time_chunks }

/-- Embedding of start_chunk_processing of tasks.py: propagates none when
chunking returned none, otherwise schedules one processing job per
(geo chunk, time chunk) pair, grouped by geographic chunk exactly as the
nested group comprehension in the source does. -/
def start_chunk_processing (chunk_details : Option ChunkDetails) :
    Option (List (ℕ × ℕ)) :=
  match chunk_details with
  | none => none
  | some cd =>
      some ((List.range cd.geographic_chunks.length).flatMap fun geo_index =>
        (List.range cd.time_chunks.length).map fun time_index =>
          (geo_index, time_index))

/-- Per-pixel no-data test used by processing_task of tasks.py when it
builds composite_no_data: true when the baseline composite value or the
analysis composite value equals the no_data sentinel. -/
def no_data_pixel (no_data_value b a : ℚ) : Bool :=
  decide (b = no_data_value) || decide (a = no_data_value)

/-- Embedding of the per-role out-of-range mask of processing_task of
tasks.py: xr_or(composite < composite_threshold_min,
composite_threshold_max < composite), pixelwise over the composite. -/
def composite_out_of_range_mask (cmin cmax : ℚ) (composite : List ℚ) :
    List Bool :=
  composite.map fun v => decide (v < cmin) || decide (cmax < v)

/-- The data a processing_task chunk writes to disk for the recombiner:
the difference raster, the combined out-of-range mask, the combined
no-data mask, the accumulated metadata (clean-pixel percentage keyed by
acquisition date), and the originating chunk ids. -/
structure ChunkResult where
  diff : List ℚ
  out_of_range : List Bool
  no_data : List Bool
  metadata : List (ℕ × ℚ)
  geo_chunk_id : ℕ
  time_chunk_id : ℕ
  deriving DecidableEq, Repr

/-- Outcome of one processing_task invocation: the source returns None
when the temp workspace is missing (modelled as skipped), raises KeyError
when the spectral index name is absent from the registry dict, and
otherwise returns the chunk result. -/
inductive ChunkOutcome where
  | skipped
  | keyError (name : String)
  | ok (r : ChunkResult)
  deriving DecidableEq, Repr

/-- Embedding of processing_task of tasks.py for one chunk.  Data
loading, the clean-observation mask and the compositing method are
external utilities; their net effect per role is the role composite,
passed in as baseline_composite and analysis_composite, and the metadata
accumulated from the loaded datasets, passed in as metadata.  The source
first returns None when the temp workspace path does not exist, then (in
the role loop) looks the spectral index up in
spectral_indices_function_map - a dict access that raises KeyError for an
unknown name - then computes the per-role out-of-range masks, the
difference composite analysis - baseline, the combined out-of-range mask
as xr_or of the two role masks, and the combined no-data mask as xr_or of
(baseline == no_data) and (analysis == no_data). -/
def processing_task (temp_path_exists : Bool) (spectral_index : String)
    (cmin cmax no_data_value : ℚ)
    (baseline_composite analysis_composite : List ℚ)
    (metadata : List (ℕ × ℚ)) (geo_chunk_id time_chunk_id : ℕ) :
    ChunkOutcome :=
  if temp_path_exists = false then ChunkOutcome.skipped
  else
    match spectral_indices_function_map spectral_index with
    | none => ChunkOutcome.keyError spectral_index
    | some _ =>
        ChunkOutcome.ok
          { diff := List.zipWith (fun a b => a - b)
              analysis_composite baseline_composite
            out_of_range := List.zipWith (fun x y => x || y)
              (composite_out_of_range_mask cmin cmax baseline_composite)
              (composite_out_of_range_mask cmin cmax analysis_composite)
            no_data := List.zipWith (no_data_pixel no_data_value)
              baseline_composite analysis_composite
            metadata := metadata
            geo_chunk_id := geo_chunk_id
            time_chunk_id := time_chunk_id }

/-- The Python None returned by a skipped processing_task, as seen by the
recombiner: skipped and keyError contribute no result. -/
def ChunkOutcome.toOption : ChunkOutcome → Option ChunkResult
  | ChunkOutcome.ok r => some r
  | _ => none

/-- Modelled from the spec: task.combine_metadata (defined in the task
model, outside the provided sources) merges per-acquisition-date metadata
by union keyed on acquisition date, never double-counting a date already
present. -/
def combine_metadata (acc incoming : List (ℕ × ℚ)) : List (ℕ × ℚ) :=
  acc ++ incoming.filter fun kv => !(acc.any fun p => p.1 == kv.1)

/-- The mosaic assembled by recombine_geographic_chunks: the surviving
chunk results in input order (spatial stitching of the disjoint chunks is
done by the external combine_geographic_chunks utility and preserves every
chunk raster), plus the merged metadata. -/
structure Mosaic where
  chunks : List ChunkResult
  metadata : List (ℕ × ℚ)
  deriving DecidableEq, Repr

/-- Embedding of recombine_geographic_chunks of tasks.py applied to a
list argument: filters the None entries out, then folds the metadata of
the surviving chunks with combine_metadata starting from the empty dict,
and hands the surviving chunk data to the external combiner. -/
def recombine_geographic_chunks (chunks : List (Option ChunkResult)) :
    Mosaic :=
  let total_chunks := chunks.filterMap id
  { chunks := total_chunks
    metadata := total_chunks.foldl
      (fun m c => combine_metadata m c.metadata) [] }

/-- The argument recombine_geographic_chunks actually receives from
celery: either a bare chunk result (when only one processing job ran) or
a list of them. -/
inductive ChunksArg where
  | single (c : Option ChunkResult)
  | list (cs : List (Option ChunkResult))
  deriving DecidableEq, Repr

/-- Embedding of the isinstance guard at the top of
recombine_geographic_chunks of tasks.py: a non-list argument is wrapped
into a one-element list before the None filter and the merge. -/
def recombine_geographic_chunks_entry : ChunksArg → Mosaic
  | ChunksArg.single c => recombine_geographic_chunks [c]
  | ChunksArg.list cs => recombine_geographic_chunks cs

/-- An RGBA color as the four floats matplotlib uses, modelled over ℚ. -/
def RGBA : Type := ℚ × ℚ × ℚ × ℚ

instance : DecidableEq RGBA := by
  unfold RGBA
  infer_instance

/-- mpl.colors.to_rgba applied to the color name black in
create_output_products of tasks.py: opaque black. -/
def change_out_of_range_color : RGBA := (0, 0, 0, 1)

/-- mpl.colors.to_rgba applied to the color name white in
create_output_products of tasks.py: opaque white. -/
def composite_out_of_range_color : RGBA := (1, 1, 1, 1)

/-- The np.array([0., 0., 0., 0.]) of create_output_products of tasks.py:
fully transparent. -/
def composite_no_data_color : RGBA := (0, 0, 0, 0)

/-- Embedding of the change-region selection of create_output_products of
tasks.py: (diff_data < cng_min) ^ (cng_max < diff_data), the elementwise
XOR of the two comparisons, at one pixel. -/
def diff_composite_out_of_range (cng_min cng_max diff : ℚ) : Bool :=
  xor (decide (diff < cng_min)) (decide (cng_max < diff))

/-- Embedding of np.interp(x, (xmin, xmax), (0, 1)) as used by
create_output_products of tasks.py: the piecewise-linear interpolant that
clamps to the endpoint values 0 and 1 outside (xmin, xmax) and rescales
linearly inside. -/
def np_interp_unit (xmin xmax x : ℚ) : ℚ :=
  if x ≤ xmin then 0
  else if xmax ≤ x then 1
  else (x - xmin) / (xmax - xmin)

/-- Embedding of steps 2.1 and 2.2 of create_output_products of tasks.py:
look the selected index range (spec_ind_min, spec_ind_max) up in
spectral_indices_range_map, form the theoretical difference range
(spec_ind_min - spec_ind_max, spec_ind_max - spec_ind_min), and rescale
one difference value into [0, 1] with np.interp. -/
def normalize_diff (spectral_index : String) (x : ℚ) : Option ℚ :=
  match spectral_indices_range_map spectral_index with
  | none => none
  | some (spec_ind_min, spec_ind_max) =>
      some (np_interp_unit (spec_ind_min - spec_ind_max)
        (spec_ind_max - spec_ind_min) x)

/-- Embedding of the per-pixel mask hierarchy of create_output_products
of tasks.py (steps 2.3.2 to 2.3.4).  base is the color the RdYlGn
colormap assigned to this pixel in step 2.3.1 (the colormap itself is
matplotlib data, so the base color is a parameter).  The source then
performs three sequential in-place assignments on image_data: paint
change_out_of_range_color where the XOR predicate holds, but only when
both change thresholds are set; then paint composite_out_of_range_color
where the combined composite out-of-range mask holds; then paint
composite_no_data_color where the combined no-data mask holds.  A later
assignment overwrites an earlier one at the same pixel. -/
def render_pixel (base : RGBA) (diff : ℚ)
    (cng_min cng_max : Option ℚ) (out_of_range no_data : Bool) : RGBA :=
  let after_change :=
    match cng_min, cng_max with
    | some mn, some mx =>
        if diff_composite_out_of_range mn mx diff then
          change_out_of_range_color
        else base
    | _, _ => base
  let after_composite_range :=
    if out_of_range then composite_out_of_range_color else after_change
  if no_data then composite_no_data_color else after_composite_range

/-- The full celery chain launched by run and start_chunk_processing of
tasks.py, after parameter parsing: validate, chunk, schedule the
processing jobs, recombine their results, render.  The per-job chunk
processing outcome and the final rendering of the mosaic into output
artifacts (GeoTIFF, PNG, plot) are supplied as functions; when a stage
returns none, no later stage runs and no artifact is produced. -/
def run_pipeline {Artifacts : Type} (parameters : AnalysisParameters)
    (baseline_acquisitions analysis_acquisitions : List ℕ)
    (measurements_valid : Bool)
    (geographic_chunks : List GeoChunk) (time_chunks : List (List ℕ))
    (process_job : ℕ × ℕ → ChunkOutcome)
    (render : Mosaic → Artifacts) : Option Artifacts :=
  match start_chunk_processing
      (perform_task_chunking
        (validate_parameters parameters baseline_acquisitions
          analysis_acquisitions measurements_valid).1
        geographic_chunks time_chunks) with
  | none => none
  | some jobs =>
      some (render (recombine_geographic_chunks
        (jobs.map fun job => (process_job job).toOption)))

/-- C1: when both change thresholds are set and change_threshold_min is
at most change_threshold_max, the XOR-based selection predicate of the
Output Renderer agrees with the OR of the two comparisons, so a pixel is
painted the fixed change-out-of-range color exactly when its difference
value lies outside the change-validity range. -/
theorem change_predicate_is_or (mn mx diff : ℚ) (h : mn ≤ mx) :
    (diff_composite_out_of_range mn mx diff = true ↔
      (diff < mn ∨ mx < diff)) ∧
    (∀ base : RGBA,
      render_pixel base diff (some mn) (some mx) false false =
        if diff < mn ∨ mx < diff then change_out_of_range_color
        else base) := by
  have hiff : diff_composite_out_of_range mn mx diff = true ↔
      (diff < mn ∨ mx < diff) := by
    unfold diff_composite_out_of_range
    rcases lt_or_le diff mn with h1 | h1
    · rcases lt_or_le mx diff with h2 | h2
      · exact absurd (lt_trans (lt_of_lt_of_le h1 h) h2) (lt_irrefl diff)
      · simp [h1, not_lt.mpr h2]
    · rcases lt_or_le mx diff with h2 | h2
      · simp [not_lt.mpr h1, h2]
      · simp [not_lt.mpr h1, not_lt.mpr h2]
  refine ⟨hiff, fun base => ?_⟩
  by_cases hd : diff < mn ∨ mx < diff
  · simp [render_pixel, hiff.mpr hd, hd]
  · have hb : diff_composite_out_of_range mn mx diff = false := by
      cases hcb : diff_composite_out_of_range mn mx diff
      · rfl
      · exact absurd (hiff.mp hcb) hd
    simp [render_pixel, hb, hd]

/-- C1 witness: at thresholds 0 and 1 and difference value 2 the
predicate equivalence holds concretely. -/
theorem change_predicate_is_or_witness :
    diff_composite_out_of_range 0 1 2 = true ↔
      ((2 : ℚ) < 0 ∨ (1 : ℚ) < 2) :=
  (change_predicate_is_or 0 1 2 (by norm_num)).1

/-- C2: the sequential per-pixel paint rules of the Output Renderer give
strict precedence to the masks: a no-data pixel ends up fully transparent
whatever the other flags and the change range; an invalid-composite pixel
that is not no-data ends up the opaque invalid-composite color whatever
the change thresholds; and a pixel whose baseline composite equals the
no-data sentinel renders fully transparent even with no change range
configured. -/
theorem mask_hierarchy_precedence :
    (∀ (base : RGBA) (diff : ℚ) (cng_min cng_max : Option ℚ)
        (out_of_range : Bool),
      render_pixel base diff cng_min cng_max out_of_range true =
        composite_no_data_color) ∧
    (∀ (base : RGBA) (diff : ℚ) (cng_min cng_max : Option ℚ),
      render_pixel base diff cng_min cng_max true false =
        composite_out_of_range_color) ∧
    (∀ (base : RGBA) (diff no_data_value a : ℚ) (out_of_range : Bool),
      render_pixel base diff none none out_of_range
        (no_data_pixel no_data_value no_data_value a) =
        composite_no_data_color) := by
  refine ⟨fun base diff cmin cmax oor => by simp [render_pixel],
          fun base diff cmin cmax => by simp [render_pixel],
          fun base diff nd a oor => by simp [render_pixel, no_data_pixel]⟩

/-- C9: a half-specified change range behaves exactly like an absent
change range: with only one of the two thresholds set, the renderer
paints no pixel for the change rule, because the source guard requires
both thresholds to be non-None. -/
theorem half_specified_change_range_skips_rule :
    (∀ (base : RGBA) (diff mn : ℚ) (out_of_range no_data : Bool),
      render_pixel base diff (some mn) none out_of_range no_data =
        render_pixel base diff none none out_of_range no_data) ∧
    (∀ (base : RGBA) (diff mx : ℚ) (out_of_range no_data : Bool),
      render_pixel base diff none (some mx) out_of_range no_data =
        render_pixel base diff none none out_of_range no_data) :=
  ⟨fun _ _ _ _ _ => rfl, fun _ _ _ _ _ => rfl⟩

/-- C10: the Geographic Recombiner accepts a bare (non-list) chunk
result and treats it exactly as the one-element list containing it. -/
theorem recombine_accepts_bare_chunk (c : Option ChunkResult) :
    recombine_geographic_chunks_entry (ChunksArg.single c) =
      recombine_geographic_chunks_entry (ChunksArg.list [c]) := rfl

/-- C8: a missing temp workspace makes the Chunk Processor return its
null outcome without producing a result, and the Geographic Recombiner
filters every null entry out before merging, so a null entry anywhere in
the input list leaves the mosaic of the remaining chunks unchanged. -/
theorem skipped_chunk_contributes_nothing :
    (∀ (spectral_index : String) (cmin cmax no_data_value : ℚ)
        (baseline_composite analysis_composite : List ℚ)
        (metadata : List (ℕ × ℚ)) (geo_chunk_id time_chunk_id : ℕ),
      processing_task false spectral_index cmin cmax no_data_value
        baseline_composite analysis_composite metadata geo_chunk_id
        time_chunk_id = ChunkOutcome.skipped) ∧
    (ChunkOutcome.skipped.toOption = (none : Option ChunkResult)) ∧
    (∀ (l1 l2 : List (Option ChunkResult)),
      recombine_geographic_chunks (l1 ++ none :: l2) =
        recombine_geographic_chunks (l1 ++ l2)) := by
  refine ⟨fun _ _ _ _ _ _ _ _ _ => rfl, rfl, fun l1 l2 => ?_⟩
  unfold recombine_geographic_chunks
  simp [List.filterMap_append]

/-- C5: for every chunk result the Chunk Processor produces, the
difference raster is the pixelwise subtraction analysis minus baseline,
the combined no-data mask holds at a pixel exactly when the baseline or
the analysis composite equals the no-data sentinel there, and when both
composites are everywhere the sentinel the combined no-data mask is
all-true. -/
theorem difference_and_no_data_mask (temp_path_exists : Bool)
    (spectral_index : String) (cmin cmax no_data_value : ℚ)
    (baseline_composite analysis_composite : List ℚ)
    (metadata : List (ℕ × ℚ)) (geo_chunk_id time_chunk_id : ℕ)
    (r : ChunkResult)
    (h : processing_task temp_path_exists spectral_index cmin cmax
      no_data_value baseline_composite analysis_composite metadata
      geo_chunk_id time_chunk_id = ChunkOutcome.ok r) :
    (∀ (i : ℕ) (d b a : ℚ), r.diff[i]? = some d →
      baseline_composite[i]? = some b →
      analysis_composite[i]? = some a → d = a - b) ∧
    (∀ (i : ℕ) (m : Bool) (b a : ℚ), r.no_data[i]? = some m →
      baseline_composite[i]? = some b →
      analysis_composite[i]? = some a →
      (m = true ↔ (b = no_data_value ∨ a = no_data_value))) ∧
    ((∀ x ∈ baseline_composite, x = no_data_value) →
      (∀ x ∈ analysis_composite, x = no_data_value) →
      ∀ m ∈ r.no_data, m = true) := by
  unfold processing_task at h
  by_cases ht : temp_path_exists = false
  · rw [if_pos ht] at h
    exact absurd h (by simp)
  · rw [if_neg ht] at h
    cases hreg : spectral_indices_function_map spectral_index with
    | none =>
        rw [hreg] at h
        exact absurd h (by simp)
    | some fn =>
        rw [hreg] at h
        simp only [ChunkOutcome.ok.injEq] at h
        subst h
        refine ⟨?_, ?_, ?_⟩
        · intro i d b a hd hb ha
          rcases List.getElem?_zipWith_eq_some.mp hd with
            ⟨x, y, hx, hy, hxy⟩
          have hxa : x = a := Option.some.inj (hx.symm.trans ha)
          have hyb : y = b := Option.some.inj (hy.symm.trans hb)
          rw [hxa, hyb] at hxy
          exact hxy.symm
        · intro i m b a hm hb ha
          rcases List.getElem?_zipWith_eq_some.mp hm with
            ⟨x, y, hx, hy, hxy⟩
          have hxb : x = b := Option.some.inj (hx.symm.trans hb)
          have hya : y = a := Option.some.inj (hy.symm.trans ha)
          rw [hxb, hya] at hxy
          rw [← hxy]
          simp [no_data_pixel]
        · intro hball haall m hm
          rcases List.mem_iff_getElem?.mp hm with ⟨i, hi⟩
          rcases List.getElem?_zipWith_eq_some.mp hi with
            ⟨b, a, hb, ha, hba⟩
          have hbv : b = no_data_value :=
            hball b (List.getElem?_mem hb)
          have hav : a = no_data_value :=
            haall a (List.getElem?_mem ha)
          rw [hbv, hav] at hba
          rw [← hba]
          simp [no_data_pixel]

/-- C5 witness: on one-pixel composites with baseline value 5 and
analysis value 7 the difference pixel equals 7 minus 5. -/
theorem difference_and_no_data_mask_witness : (2 : ℚ) = 7 - 5 :=
  ((difference_and_no_data_mask true "ndvi" 0 1 (-9999) [5] [7] [] 0 0
      { diff := [2], out_of_range := [true], no_data := [false],
        metadata := [], geo_chunk_id := 0, time_chunk_id := 0 }
      (by
        have hreg : spectral_indices_function_map "ndvi" =
            some SpectralFn.NDVI := rfl
        simp [processing_task, hreg, composite_out_of_range_mask,
          no_data_pixel]
        norm_num)).1) 0 2 5 7 rfl rfl rfl

/-- C6: the per-role out-of-range mask of the Chunk Processor holds at a
pixel exactly when the composite value is below
composite_threshold_min or above composite_threshold_max (OR of the two
comparisons), and the combined out-of-range mask of a produced chunk
result is the pixelwise OR of the baseline mask and the analysis mask. -/
theorem out_of_range_masks (temp_path_exists : Bool)
    (spectral_index : String) (cmin cmax no_data_value : ℚ)
    (baseline_composite analysis_composite : List ℚ)
    (metadata : List (ℕ × ℚ)) (geo_chunk_id time_chunk_id : ℕ)
    (r : ChunkResult)
    (h : processing_task temp_path_exists spectral_index cmin cmax
      no_data_value baseline_composite analysis_composite metadata
      geo_chunk_id time_chunk_id = ChunkOutcome.ok r) :
    (∀ (composite : List ℚ) (i : ℕ) (v : ℚ) (m : Bool),
      composite[i]? = some v →
      (composite_out_of_range_mask cmin cmax composite)[i]? = some m →
      (m = true ↔ (v < cmin ∨ cmax < v))) ∧
    r.out_of_range = List.zipWith (fun x y => x || y)
      (composite_out_of_range_mask cmin cmax baseline_composite)
      (composite_out_of_range_mask cmin cmax analysis_composite) := by
  constructor
  · intro composite i v m hv hm
    unfold composite_out_of_range_mask at hm
    rw [List.getElem?_map, hv] at hm
    have : (decide (v < cmin) || decide (cmax < v)) = m :=
      Option.some.inj hm
    rw [← this]
    simp
  · unfold processing_task at h
    by_cases ht : temp_path_exists = false
    · rw [if_pos ht] at h
      exact absurd h (by simp)
    · rw [if_neg ht] at h
      cases hreg : spectral_indices_function_map spectral_index with
      | none =>
          rw [hreg] at h
          exact absurd h (by simp)
      | some fn =>
          rw [hreg] at h
          simp only [ChunkOutcome.ok.injEq] at h
          subst h
          rfl

/-- C6 witness: on one-pixel composites with baseline value 5 and
thresholds 0 and 1 the per-role mask pixel is true and the OR form of
the predicate holds concretely. -/
theorem out_of_range_masks_witness :
    (true = true) ↔ ((5 : ℚ) < 0 ∨ (1 : ℚ) < 5) :=
  ((out_of_range_masks true "ndvi" 0 1 (-9999) [5] [7] [] 0 0
      { diff := [2], out_of_range := [true], no_data := [false],
        metadata := [], geo_chunk_id := 0, time_chunk_id := 0 }
      (by
        have hreg : spectral_indices_function_map "ndvi" =
            some SpectralFn.NDVI := rfl
        simp [processing_task, hreg, composite_out_of_range_mask,
          no_data_pixel]
        norm_num)).1) [5] 0 5 true rfl rfl

/-- C7: the Output Renderer rescales a difference value linearly from the
theoretical difference range (index_min - index_max, index_max -
index_min) of the selected spectral index into [0, 1], and for NDVI
(registry range -1 to 1) a difference of 0 maps to exactly one half
before color-mapping. -/
theorem normalization_linear_rescale (spectral_index : String)
    (spec_ind_min spec_ind_max x : ℚ)
    (hr : spectral_indices_range_map spectral_index =
      some (spec_ind_min, spec_ind_max))
    (hlt : spec_ind_min < spec_ind_max)
    (hlo : spec_ind_min - spec_ind_max ≤ x)
    (hhi : x ≤ spec_ind_max - spec_ind_min) :
    normalize_diff spectral_index x =
      some ((x - (spec_ind_min - spec_ind_max)) /
        ((spec_ind_max - spec_ind_min) - (spec_ind_min - spec_ind_max))) ∧
    normalize_diff "ndvi" 0 = some (1 / 2) := by
  constructor
  · have key : np_interp_unit (spec_ind_min - spec_ind_max)
        (spec_ind_max - spec_ind_min) x =
        (x - (spec_ind_min - spec_ind_max)) /
          ((spec_ind_max - spec_ind_min) - (spec_ind_min - spec_ind_max)) := by
      unfold np_interp_unit
      set dmin := spec_ind_min - spec_ind_max with hdmin
      set dmax := spec_ind_max - spec_ind_min with hdmax
      have hden : dmax - dmin ≠ 0 := by
        have hpos : 0 < dmax - dmin := by
          rw [hdmax, hdmin]
          linarith
        exact ne_of_gt hpos
      by_cases h1 : x ≤ dmin
      · have hx : x = dmin := le_antisymm h1 hlo
        rw [if_pos h1, hx]
        simp
      · rw [if_neg h1]
        by_cases h2 : dmax ≤ x
        · have hx : x = dmax := le_antisymm hhi h2
          rw [if_pos h2, hx, div_self hden]
        · rw [if_neg h2]
    unfold normalize_diff
    rw [hr]
    exact congrArg some key
  · have hr2 : spectral_indices_range_map "ndvi" = some (-1, 1) := rfl
    unfold normalize_diff
    rw [hr2]
    show some (np_interp_unit ((-1) - 1) (1 - (-1)) 0) = some (1 / 2)
    unfold np_interp_unit
    norm_num

/-- C7 witness: for NDVI at difference value 1 the linear rescale
formula gives three quarters, and difference 0 maps to one half. -/
theorem normalization_linear_rescale_witness :
    normalize_diff "ndvi" 1 = some (3 / 4) ∧
    normalize_diff "ndvi" 0 = some (1 / 2) := by
  have h := normalization_linear_rescale "ndvi" (-1) 1 1 rfl
    (by norm_num) (by norm_num) (by norm_num)
  refine ⟨?_, h.2⟩
  rw [h.1]
  norm_num

/-- Concrete parameter bundle with a spectral index name outside the
registry, used to exercise validation and chunk processing. -/
def unknownIndexParameters : AnalysisParameters :=
  { spectral_index := "unknown_index", composite_threshold_min := 0,
    composite_threshold_max := 1, change_threshold_min := none,
    change_threshold_max := none, no_data_value := -9999 }

/-- C3 counterexample: a request whose spectral index name is not in the
registry passes request validation (validation returns the parameters
with status WAIT, raising no configuration error), and the unknown name
reaches the Chunk Processor, whose registry lookup then fails. -/
theorem unknown_index_reaches_chunk_processor :
    spectral_indices_function_map "unknown_index" = none ∧
    (validate_parameters unknownIndexParameters [0] [1] true).1 =
      some unknownIndexParameters ∧
    (validate_parameters unknownIndexParameters [0] [1] true).2.status =
      TaskStatus.WAIT ∧
    processing_task true "unknown_index" 0 1 (-9999) [0] [0] [] 0 0 =
      ChunkOutcome.keyError "unknown_index" :=
  ⟨rfl, rfl, rfl, rfl⟩

/-- C3 amended: request validation performs no spectral index check, so
a request with any unknown index name and nonempty acquisition lists and
valid measurements validates successfully, and the failure surfaces only
in the Chunk Processor as a failed registry lookup (a Python KeyError)
when the first chunk is processed. -/
theorem unknown_index_fails_during_processing (name : String)
    (parameters : AnalysisParameters)
    (baseline_acquisitions analysis_acquisitions : List ℕ)
    (cmin cmax no_data_value : ℚ)
    (baseline_composite analysis_composite : List ℚ)
    (metadata : List (ℕ × ℚ)) (geo_chunk_id time_chunk_id : ℕ)
    (hreg : spectral_indices_function_map name = none)
    (hb : 1 ≤ baseline_acquisitions.length)
    (ha : 1 ≤ analysis_acquisitions.length) :
    (validate_parameters parameters baseline_acquisitions
      analysis_acquisitions true).1 = some parameters ∧
    processing_task true name cmin cmax no_data_value baseline_composite
      analysis_composite metadata geo_chunk_id time_chunk_id =
      ChunkOutcome.keyError name := by
  constructor
  · unfold validate_parameters
    rw [if_neg (by omega), if_neg (by omega)]
    simp
  · unfold processing_task
    rw [if_neg (by simp), hreg]

/-- C3 amended witness: at the concrete unknown name the validation
succeeds and the processor lookup fails. -/
theorem unknown_index_fails_during_processing_witness :
    (validate_parameters unknownIndexParameters [0] [1] true).1 =
      some unknownIndexParameters ∧
    processing_task true "unknown_index" 0 1 (-9999) [0] [0] [] 0 0 =
      ChunkOutcome.keyError "unknown_index" :=
  unknown_index_fails_during_processing "unknown_index"
    unknownIndexParameters [0] [1] 0 1 (-9999) [0] [0] [] 0 0 rfl
    (by decide) (by decide)

/-- C4: with zero acquisitions in the baseline or the analysis time
range, validation marks the task complete with terminal status ERROR and
returns none, chunking and the processing fan-out then propagate none,
and the whole pipeline produces no output artifact. -/
theorem empty_time_range_is_terminal {Artifacts : Type}
    (parameters : AnalysisParameters)
    (baseline_acquisitions analysis_acquisitions : List ℕ)
    (measurements_valid : Bool)
    (geographic_chunks : List GeoChunk) (time_chunks : List (List ℕ))
    (process_job : ℕ × ℕ → ChunkOutcome) (render : Mosaic → Artifacts)
    (h : baseline_acquisitions.length = 0 ∨
      analysis_acquisitions.length = 0) :
    validate_parameters parameters baseline_acquisitions
        analysis_acquisitions measurements_valid =
      (none, { complete := true, status := TaskStatus.ERROR }) ∧
    perform_task_chunking
        (validate_parameters parameters baseline_acquisitions
          analysis_acquisitions measurements_valid).1
        geographic_chunks time_chunks = none ∧
    start_chunk_processing
        (perform_task_chunking
          (validate_parameters parameters baseline_acquisitions
            analysis_acquisitions measurements_valid).1
          geographic_chunks time_chunks) = none ∧
    run_pipeline parameters baseline_acquisitions analysis_acquisitions
        measurements_valid geographic_chunks time_chunks process_job
        render = none := by
  have hv : validate_parameters parameters baseline_acquisitions
      analysis_acquisitions measurements_valid =
      (none, { complete := true, status := TaskStatus.ERROR }) := by
    unfold validate_parameters
    rcases h with h | h
    · rw [if_pos (by omega)]
    · by_cases hb : baseline_acquisitions.length < 1
      · rw [if_pos hb]
      · rw [if_neg hb, if_pos (by omega)]
  refine ⟨hv, ?_, ?_, ?_⟩
  · rw [hv]
    rfl
  · rw [hv]
    rfl
  · unfold run_pipeline
    rw [hv]
    rfl

/-- Concrete well-formed parameter bundle used to instantiate pipeline
theorems. -/
def sampleParameters : AnalysisParameters :=
  { spectral_index := "ndvi", composite_threshold_min := 0,
    composite_threshold_max := 1, change_threshold_min := none,
    change_threshold_max := none, no_data_value := -9999 }

/-- C4 witness: with an empty baseline acquisition list the validation
stage reports the terminal error and every downstream stage yields
nothing. -/
theorem empty_time_range_is_terminal_witness :
    validate_parameters sampleParameters [] [0] true =
      (none, { complete := true, status := TaskStatus.ERROR }) ∧
    perform_task_chunking
        (validate_parameters sampleParameters [] [0] true).1 [] [] =
      none ∧
    start_chunk_processing
        (perform_task_chunking
          (validate_parameters sampleParameters [] [0] true).1 [] []) =
      none ∧
    run_pipeline sampleParameters [] [0] true [] []
        (fun _ => ChunkOutcome.skipped) (fun _ => (0 : ℕ)) = none :=
  empty_time_range_is_terminal sampleParameters [] [0] true [] []
    (fun _ => ChunkOutcome.skipped) (fun _ => (0 : ℕ)) (Or.inl rfl)
